import Mathlib

/-!
Shallow embedding of the resource-wrapping layer of the cuda-api-wrappers
repository fragment (kernel.hpp, miscellany.hpp, multi_wrapper_impls.hpp),
together with theorems settling the specification claims.

Driver calls are modelled explicitly: each wrapper operation returns an
`Except Err _` result paired with the list of driver calls it issued
(launch, attribute get/set, event record, occupancy query).  The driver
itself is passed in as a function argument (its status code and any values
it reports), since the real driver is an external collaborator.  The
ambient current-device/context switching performed by scoped-override
guards is a state effect, modelled separately (see the `Prog`/`run`
development below); it is orthogonal to the attribute/launch/record calls
the claims quantify over, so those traces do not record device switches.
-/

namespace Cuda

/-- Native status code for success (cudaSuccess / CUDA_SUCCESS). -/
def status_success : Nat := 0

/-- Native status code reported when no CUDA device is present (cudaErrorNoDevice). -/
def status_no_device : Nat := 100

/-- Native status code cuda::status::not_yet_implemented (cudaErrorNotYetImplemented). -/
def status_not_yet_implemented : Nat := 31

/-- Typed failures raised by this layer: a native driver error translated by
throw_if_error, a precondition violation detected before reaching the driver
(std::invalid_argument), or an internal consistency failure (std::logic_error). -/
inductive Err where
  | invalidArgument (msg : String)
  | runtimeError (st : Nat) (msg : String)
  | logicError (msg : String)
  deriving DecidableEq, Repr

/-- throw_if_error (error.hpp): a non-success status becomes a typed runtime error
carrying the status and a contextual message; success is a no-op. -/
def throw_if_error (st : Nat) (msg : String) : Except Err Unit :=
  if st = status_success then Except.ok () else Except.error (Err.runtimeError st msg)

/-- Launch configuration: grid dimensions, block dimensions, dynamic
shared-memory byte count, cooperative-launch flag. -/
structure launch_configuration_t where
  grid_dims : Nat × Nat × Nat
  block_dims : Nat × Nat × Nat
  dynamic_shared_memory_size : Nat
  block_cooperation : Bool
  deriving DecidableEq, Repr

/-- The driver calls the wrapper layer can issue, as recorded in a trace.
Device-switching calls made by scoped-override guards are modelled as state
effects and are not part of these traces. -/
inductive DriverCall where
  | funcSetAttribute (fnPtr : Nat) (attr : Nat) (value : Int)
  | funcGetAttribute (handle : Nat) (attr : Nat)
  | launchKernel (fnPtr : Nat) (streamHandle : Nat) (cfg : launch_configuration_t) (params : List Int)
  | eventRecord (eventHandle : Nat) (streamHandle : Nat)
  | occupancyQuery (fnPtr : Nat) (blockSizeLimit : Nat) (disableCachingOverride : Bool)
  deriving DecidableEq, Repr

/-- kernel_t: a non-owning wrapper around a compiled kernel.  kernel.hpp stores
device_id_, context_handle_ and a driver handle_; the runtime-API methods in
multi_wrapper_impls.hpp use a function pointer ptr_.  Handles and pointers are
opaque, modelled as naturals. -/
structure kernel_t where
  device_id : Nat
  context_handle : Nat
  handle : Nat
  ptr : Nat
  deriving DecidableEq, Repr

/-- stream_t: a wrapper around a stream handle associated with one device. -/
structure stream_t where
  device_id : Nat
  handle : Nat
  deriving DecidableEq, Repr

/-- event_t: a wrapper around an event handle associated with one device. -/
structure event_t where
  device_id : Nat
  handle : Nat
  deriving DecidableEq, Repr

/-- Modelled from the spec: device::detail_::identify (device.hpp is outside
the provided sources) produces a stable human-readable identifier for a
device id. -/
def identify_device (id : Nat) : String := "device " ++ toString id

/-- Modelled from the spec: event::detail_::identify (event.hpp is outside the
provided sources) produces a stable human-readable identifier for an event
handle. -/
def identify_event (h : Nat) : String := "event " ++ toString h

/-- Modelled from the spec: stream::detail_::identify (stream.hpp is outside
the provided sources) produces an identifier such as "stream ... on device 2". -/
def identify_stream (h : Nat) (device_id : Nat) : String :=
  "stream " ++ toString h ++ " on " ++ identify_device device_id

/- ----------------------------------------------------------------------
C1: the scoped-override guard over the ambient current-device/context state.
---------------------------------------------------------------------- -/

/-- Modelled from the spec: the scoped_override_t guard of the Ambient Context
Registry (current_device.hpp / current_context.hpp are outside the provided
sources; kernel_t::get_attribute and device_t::create_stream in the sources
use it).  A program is a nest of guarded regions over the ambient value:
normal completion, a failing (exception-raising) block, an internal
unconditional set_current, sequencing, and a scoped override whose guard
saves the prior ambient value on entry, installs the new one, and restores
the saved value on every exit path, normal or exceptional. -/
inductive Prog where
  | ret : Prog
  | raise : Prog
  | set_current (v : Nat) : Prog
  | seq (a b : Prog) : Prog
  | scoped_override (v : Nat) (body : Prog) : Prog
  deriving DecidableEq, Repr

/-- Modelled from the spec: execution of a `Prog` over the ambient value.
The Bool records whether execution completed normally (true) or an exception
is propagating (false); an exception aborts the rest of a sequence.  The
scoped-override guard remembers the ambient value at entry, runs the body
with the override installed, and on exit (whether the body completed or
raised) restores exactly the remembered value. -/
def run : Prog → Nat → Bool × Nat
  | Prog.ret, s => (true, s)
  | Prog.raise, s => (false, s)
  | Prog.set_current v, _ => (true, v)
  | Prog.seq a b, s =>
      match run a s with
      | (true, s1) => run b s1
      | (false, s1) => (false, s1)
  | Prog.scoped_override v body, s =>
      let saved := s
      let afterBody := run body v
      (afterBody.1, saved)

/- ----------------------------------------------------------------------
C2 / C8: the enqueue dispatcher and the implicit-queue launch convenience.
---------------------------------------------------------------------- -/

/-- The handle sentinel of the default stream of a device, never owned or
destroyed by any proxy (nullptr in the driver API). -/
def default_stream_handle : Nat := 0

/-- The raw-launch path: detail_::enqueue_launch on a raw kernel function
(kernel_launch.hpp is outside the provided sources).  Modelled from the spec:
it forwards the function pointer, stream handle, configuration and parameters
to the driver asynchronous launch primitive.  The driver accepts the request
(its own later failures are out of scope of the dispatcher claims). -/
def raw_enqueue_launch (fnPtr : Nat) (streamHandle : Nat)
    (cfg : launch_configuration_t) (params : List Int) :
    Except Err Unit × List DriverCall :=
  (Except.ok (), [DriverCall.launchKernel fnPtr streamHandle cfg params])

/-- detail_::enqueue_launch, wrapped-kernel overload
(multi_wrapper_impls.hpp lines 677-708): if the kernel device differs from
the stream device, throw std::invalid_argument naming both devices, issuing
no driver call; otherwise recover the raw function pointer from the wrapper
and forward to the raw-launch path.  device_t equality compares the wrapped
ids (Handle Proxy equality compares handles). -/
def enqueue_launch_wrapped (k : kernel_t) (s : stream_t)
    (cfg : launch_configuration_t) (params : List Int) :
    Except Err Unit × List DriverCall :=
  if k.device_id ≠ s.device_id then
    (Except.error (Err.invalidArgument
      ("Attempt to enqueue a kernel for " ++ identify_device k.device_id
        ++ " on a stream for " ++ "device " ++ identify_device s.device_id)), [])
  else
    raw_enqueue_launch k.ptr s.handle cfg params

/-- A launch target: the dispatcher statically distinguishes a wrapped
kernel_t from a raw kernel function (std::is_same on the decayed type,
multi_wrapper_impls.hpp lines 742-753). -/
inductive LaunchTarget where
  | wrapped (k : kernel_t)
  | raw (fnPtr : Nat)
  deriving DecidableEq, Repr

/-- cuda::enqueue_launch: dispatch on the statically-resolved target kind to
the wrapped-kernel overload or the raw-function overload (which forwards
parameters as-is to the raw-launch path, with no device check). -/
def enqueue_launch : LaunchTarget → stream_t → launch_configuration_t → List Int →
    Except Err Unit × List DriverCall
  | LaunchTarget.wrapped k, s, cfg, ps => enqueue_launch_wrapped k s cfg ps
  | LaunchTarget.raw f, s, cfg, ps => raw_enqueue_launch f s.handle cfg ps

/-- device_t::default_stream (multi_wrapper_impls.hpp lines 111-114): wrap the
default-stream sentinel handle for this device (stream::detail_::wrap merely
constructs the non-owning proxy). -/
def default_stream (device_id : Nat) : stream_t :=
  { device_id := device_id, handle := default_stream_handle }

/-- detail_::get_implicit_device (multi_wrapper_impls.hpp lines 755-768): for a
wrapped kernel_t, the kernel device; for any other target,
device::current::get(), i.e. the ambient current device (current_device.hpp is
outside the provided sources; modelled from the spec as reading the ambient
value, passed here as an argument). -/
def get_implicit_device : LaunchTarget → Nat → Nat
  | LaunchTarget.wrapped k, _ => k.device_id
  | LaunchTarget.raw _, current_device => current_device

/-- cuda::launch (multi_wrapper_impls.hpp lines 770-787): resolve the implicit
device, take its default stream, and enqueue the launch there. -/
def launch (t : LaunchTarget) (cfg : launch_configuration_t) (params : List Int)
    (current_device : Nat) : Except Err Unit × List DriverCall :=
  let dev := get_implicit_device t current_device
  let stream := default_stream dev
  enqueue_launch t stream cfg params

/- ----------------------------------------------------------------------
C4: enqueueing an event on a stream.
---------------------------------------------------------------------- -/

/-- stream::detail_::record_event_on_current_device (multi_wrapper_impls.hpp
lines 664-670): issue cudaEventRecord on the given handles and translate a
failure status. -/
def record_event_on_current_device (driverStatus : Nat)
    (device_id stream_handle event_handle : Nat) :
    Except Err Unit × List DriverCall :=
  (throw_if_error driverStatus
    ("Failed scheduling " ++ identify_event event_handle ++ " to occur"
      ++ " on stream " ++ identify_stream stream_handle device_id),
   [DriverCall.eventRecord event_handle stream_handle])

/-- stream_t::enqueue_t::event(event_t&) (multi_wrapper_impls.hpp lines
202-213): reject with std::invalid_argument, naming both devices, when the
event device differs from the stream device, before any driver call; on
match, record the event on the stream under a scoped device override. -/
def stream_enqueue_event (driverStatus : Nat) (e : event_t) (s : stream_t) :
    Except Err Unit × List DriverCall :=
  if e.device_id ≠ s.device_id then
    (Except.error (Err.invalidArgument
      ("Attempt to enqueue a CUDA event associated with "
        ++ identify_device e.device_id ++ " to be triggered by a stream on "
        ++ identify_device s.device_id)), [])
  else
    record_event_on_current_device driverStatus s.device_id s.handle e.handle

/-- event_t::record (multi_wrapper_impls.hpp lines 166-172): performs no
device-id check (its own TODO note reads: perhaps check the device ID here,
rather than have the Runtime API call fail) and calls
event::detail_::enqueue(stream.handle(), handle_).  Modelled from the spec:
event::detail_::enqueue (event.hpp is outside the provided sources) receives
only the two handles — so it cannot compare device ids — and issues the
driver record-event call on them. -/
def event_record (driverStatus : Nat) (e : event_t) (s : stream_t) :
    Except Err Unit × List DriverCall :=
  (throw_if_error driverStatus "", [DriverCall.eventRecord e.handle s.handle])

/- ----------------------------------------------------------------------
C3 / C6 / C7: kernel attribute mutation, with pre-driver validation and
toolkit-version gating.  The CUDART_VERSION preprocessor value is a
compile-time configuration of the program, modelled as a parameter.
---------------------------------------------------------------------- -/

/-- Runtime-API attribute index cudaFuncAttributeMaxDynamicSharedMemorySize. -/
def cudaFuncAttributeMaxDynamicSharedMemorySize : Nat := 8

/-- Runtime-API attribute index cudaFuncAttributePreferredSharedMemoryCarveout. -/
def cudaFuncAttributePreferredSharedMemoryCarveout : Nat := 9

/-- Driver-API attribute index CU_FUNC_ATTRIBUTE_MAX_DYNAMIC_SHARED_SIZE_BYTES. -/
def CU_FUNC_ATTRIBUTE_MAX_DYNAMIC_SHARED_SIZE_BYTES : Nat := 8

/-- Driver-API attribute index CU_FUNC_ATTRIBUTE_PTX_VERSION. -/
def CU_FUNC_ATTRIBUTE_PTX_VERSION : Nat := 5

/-- Driver-API attribute index CU_FUNC_ATTRIBUTE_BINARY_VERSION. -/
def CU_FUNC_ATTRIBUTE_BINARY_VERSION : Nat := 6

/-- kernel_t::set_attribute (multi_wrapper_impls.hpp lines 474-479): under a
scoped device override, issue cudaFuncSetAttribute and translate a failure
status into a typed error. -/
def set_attribute (driverStatus : Nat) (k : kernel_t) (attr : Nat) (value : Int) :
    Except Err Unit × List DriverCall :=
  (throw_if_error driverStatus
    ("Setting CUDA device function attribute " ++ toString attr
      ++ " to value " ++ toString value),
   [DriverCall.funcSetAttribute k.ptr attr value])

/-- kernel_t::set_preferred_shared_mem_fraction (multi_wrapper_impls.hpp lines
579-591): under a scoped device override, reject a percentage above 100 with
std::invalid_argument before the attribute-set driver call; otherwise, when
the toolkit revision has the attribute (CUDART_VERSION at least 9000), issue
cudaFuncSetAttribute for the carve-out; on an older revision, fail with
not_yet_implemented. -/
def set_preferred_shared_mem_fraction (cudartVersion : Nat) (driverStatus : Nat)
    (k : kernel_t) (shared_mem_percentage : Nat) :
    Except Err Unit × List DriverCall :=
  if shared_mem_percentage > 100 then
    (Except.error (Err.invalidArgument "Percentage value can\x27t exceed 100"), [])
  else if 9000 ≤ cudartVersion then
    (throw_if_error driverStatus
      "Trying to set the carve-out of shared memory/L1 cache memory",
     [DriverCall.funcSetAttribute k.ptr
        cudaFuncAttributePreferredSharedMemoryCarveout (shared_mem_percentage : Int)])
  else
    (Except.error (Err.runtimeError status_not_yet_implemented ""), [])

/-- kernel_t::opt_in_to_extra_dynamic_memory (multi_wrapper_impls.hpp lines
481-493): under a scoped device override, when CUDART_VERSION is at least
9000 issue cudaFuncSetAttribute for the maximum dynamic shared-memory size;
otherwise fail with not_yet_implemented. -/
def opt_in_to_extra_dynamic_memory (cudartVersion : Nat) (driverStatus : Nat)
    (k : kernel_t) (amount_required_by_kernel : Nat) :
    Except Err Unit × List DriverCall :=
  if 9000 ≤ cudartVersion then
    (throw_if_error driverStatus
      ("Trying to opt-in to " ++ toString amount_required_by_kernel
        ++ " bytes of dynamic shared memory, "
        ++ "exceeding the maximum available on device " ++ toString k.device_id
        ++ " (consider the amount of static shared memory"
        ++ "in use by the function)."),
     [DriverCall.funcSetAttribute k.ptr
        cudaFuncAttributeMaxDynamicSharedMemorySize (amount_required_by_kernel : Int)])
  else
    (Except.error (Err.runtimeError status_not_yet_implemented ""), [])

/-- Conversion of an unsigned value to a w-bit signed integer, as performed by
the C++ cast (attribute_value_t) amount: reduce modulo 2^w and reinterpret in
two-complement. -/
def toSigned (w : Nat) (v : Nat) : Int :=
  let r := v % 2 ^ w
  if r < 2 ^ (w - 1) then (r : Int) else (r : Int) - (2 ^ w : Int)

/-- Conversion of a signed integer back to a w-bit unsigned value, as
performed by the C++ cast (cuda::memory::shared::size_t): reduce modulo 2^w. -/
def toUnsigned (w : Nat) (i : Int) : Nat := (i % ((2 : Int) ^ w)).toNat

/-- kernel_t::set_maximum_dynamic_shared_memory_per_block (kernel.hpp lines
141-150): cast the requested byte count to the attribute-value integer type,
and if casting it back does not recover the original value, reject with
std::invalid_argument before any driver call; otherwise forward the converted
value to set_attribute for the maximum dynamic shared-memory size.  The exact
bit-widths of cuda::memory::shared::size_t (ws) and kernel::attribute_value_t
(wa) are declared in types.hpp, outside the provided sources, so they are
parameters here; the round-trip check is faithful to the source for any
widths. -/
def set_maximum_dynamic_shared_memory_per_block (ws wa : Nat) (driverStatus : Nat)
    (k : kernel_t) (amount_required_by_kernel : Nat) :
    Except Err Unit × List DriverCall :=
  let amount_as_attribute_value := toSigned wa amount_required_by_kernel
  if toUnsigned ws amount_as_attribute_value ≠ amount_required_by_kernel then
    (Except.error (Err.invalidArgument
      ("Requested amount of maximum shared memory exceeds the "
        ++ "representation range for kernel attribute values")), [])
  else
    set_attribute driverStatus k
      CU_FUNC_ATTRIBUTE_MAX_DYNAMIC_SHARED_SIZE_BYTES amount_as_attribute_value

/- ----------------------------------------------------------------------
C5 / C6: occupancy-based launch-parameter computation.
---------------------------------------------------------------------- -/

/-- Modelled from the spec: cuda::detail_::ptr_as_hex produces a human-readable
identifier for a function pointer (its definition is outside the provided
sources; the exact rendering is irrelevant to the claims). -/
def ptr_as_hex (p : Nat) : String := toString p

/-- detail_::min_grid_params_for_max_occupancy, block-size-dependent
shared-memory-function overload (multi_wrapper_impls.hpp lines 502-529): when
CUDART_VERSION is at most 10000 fail with not_yet_implemented before any
driver call; otherwise query the driver occupancy calculator
(cudaOccupancyMaxPotentialBlockSizeVariableSMemWithFlags, which receives the
shared-memory function itself) and return the (grid size in blocks, block
size) pair it reports, translating a failure status.  The driver is a
function argument returning (status, min grid size in blocks, block size). -/
def min_grid_params_for_max_occupancy_var_smem
    (cudartVersion : Nat)
    (occupancyDriver : Nat → (Nat → Nat) → Nat → Bool → Nat × Int × Int)
    (ptr device_id : Nat)
    (block_size_to_dynamic_shared_mem_size : Nat → Nat)
    (block_size_limit : Nat) (disable_caching_override : Bool) :
    Except Err (Int × Int) × List DriverCall :=
  if cudartVersion ≤ 10000 then
    (Except.error (Err.runtimeError status_not_yet_implemented ""), [])
  else
    let r := occupancyDriver ptr block_size_to_dynamic_shared_mem_size
      block_size_limit disable_caching_override
    ((if r.1 = status_success then Except.ok (r.2.1, r.2.2)
      else Except.error (Err.runtimeError r.1
        ("Failed obtaining parameters for a minimum-size grid for kernel "
          ++ ptr_as_hex ptr ++ " on device " ++ toString device_id ++ "."))),
     [DriverCall.occupancyQuery ptr block_size_limit disable_caching_override])

/-- detail_::min_grid_params_for_max_occupancy, fixed shared-memory-size
overload (multi_wrapper_impls.hpp lines 531-542): wrap the fixed size as a
constant function of the block size and delegate to the
variable-shared-memory overload. -/
def min_grid_params_for_max_occupancy_fixed_smem
    (cudartVersion : Nat)
    (occupancyDriver : Nat → (Nat → Nat) → Nat → Bool → Nat × Int × Int)
    (ptr device_id : Nat)
    (dynamic_shared_mem_size : Nat)
    (block_size_limit : Nat) (disable_caching_override : Bool) :
    Except Err (Int × Int) × List DriverCall :=
  let always_need_same_shared_mem_size := fun (_ : Nat) => dynamic_shared_mem_size
  min_grid_params_for_max_occupancy_var_smem cudartVersion occupancyDriver
    ptr device_id always_need_same_shared_mem_size
    block_size_limit disable_caching_override

/- ----------------------------------------------------------------------
C9: attribute reads and the noexcept boundary.
---------------------------------------------------------------------- -/

/-- Outcome of executing a wrapper operation in C++ terms: a value, a typed
exception propagating to the caller, or process termination (what C++ does
when an exception crosses a noexcept boundary). -/
inductive ExecResult (α : Type) where
  | ok (a : α)
  | thrown (e : Err)
  | terminated
  deriving DecidableEq, Repr

/-- kernel::detail_::attribute_name (kernel.hpp lines 35-51): the descriptive
names of the function-attribute indices, used in error messages of the
non-NDEBUG build. -/
def attribute_name (attribute_index : Nat) : String :=
  match attribute_index with
  | 0 => "Maximum number of threads per block"
  | 1 => "Statically-allocated shared memory size in bytes"
  | 2 => "Required constant memory size in bytes"
  | 3 => "Required local memory size in bytes"
  | 4 => "Number of registers used by each thread"
  | 5 => "PTX virtual architecture version into which the kernel code was compiled"
  | 6 => "Binary architecture version for which the function was compiled"
  | 7 => "Indication whether the function was compiled with cache mode CA"
  | 8 => "Maximum allowed size of dynamically-allocated shared memory use size bytes"
  | 9 => "Preferred shared memory carve-out to actual shared memory"
  | _ => ""

/-- kernel::detail_::get_attribute_in_current_context (kernel.hpp lines
54-67): call cuFuncGetAttribute and either return the reported value or throw
a typed error naming the attribute.  The driver is a function argument from
(handle, attribute) to (status, reported value). -/
def get_attribute_in_current_context
    (driver : Nat → Nat → Nat × Int) (handle attr : Nat) : ExecResult Int :=
  let r := driver handle attr
  if r.1 = status_success then ExecResult.ok r.2
  else ExecResult.thrown (Err.runtimeError r.1
    ("Failed obtaining attribute " ++ attribute_name attr))

/-- kernel_t::get_attribute (kernel.hpp lines 98-102): under a scoped override
installing the kernel context, read the attribute in the current context; a
typed failure propagates to the caller (the guard restores the ambient state
and does not swallow it). -/
def kernel_get_attribute (driver : Nat → Nat → Nat × Int) (k : kernel_t)
    (attr : Nat) : ExecResult Int :=
  get_attribute_in_current_context driver k.handle attr

/-- The effect of the C++ noexcept specifier on an escaping exception: a
thrown exception does not propagate past the boundary, std::terminate is
called instead. -/
def noexcept_call {α : Type} : ExecResult α → ExecResult α
  | ExecResult.thrown _ => ExecResult.terminated
  | r => r

/-- Modelled from the spec: device::compute_capability_t::from_combined_number
(device.hpp is outside the provided sources) splits a combined version number
into (major, minor). -/
def from_combined_number (n : Int) : Int × Int := (n / 10, n % 10)

/-- Lift a pure function over a successful execution outcome. -/
def ExecResult.map {α β : Type} (f : α → β) : ExecResult α → ExecResult β
  | ExecResult.ok a => ExecResult.ok (f a)
  | ExecResult.thrown e => ExecResult.thrown e
  | ExecResult.terminated => ExecResult.terminated

/-- kernel_t::ptx_version (kernel.hpp lines 104-107): read the PTX-version
attribute and split it into a compute capability.  The method is declared
noexcept, so the typed error thrown by get_attribute on a driver failure
cannot propagate past it. -/
def ptx_version (driver : Nat → Nat → Nat × Int) (k : kernel_t) :
    ExecResult (Int × Int) :=
  noexcept_call
    (ExecResult.map from_combined_number
      (kernel_get_attribute driver k CU_FUNC_ATTRIBUTE_PTX_VERSION))

/-- kernel_t::binary_compilation_target_architecture (kernel.hpp lines
109-112): read the binary-version attribute and split it into a compute
capability; also declared noexcept. -/
def binary_compilation_target_architecture
    (driver : Nat → Nat → Nat × Int) (k : kernel_t) : ExecResult (Int × Int) :=
  noexcept_call
    (ExecResult.map from_combined_number
      (kernel_get_attribute driver k CU_FUNC_ATTRIBUTE_BINARY_VERSION))

/- ----------------------------------------------------------------------
C10: device::count.
---------------------------------------------------------------------- -/

/-- device::count (miscellany.hpp lines 49-63): call cudaGetDeviceCount; on
the no-device status return 0; on any other non-success status throw a typed
error; if the driver reported a negative count, throw std::logic_error;
otherwise return the count.  The driver outcome is passed in as the returned
status and the value it left in the output parameter (initialized to 0). -/
def count (result : Nat) (device_count : Int) : Except Err Int :=
  if result = status_no_device then
    Except.ok 0
  else
    match throw_if_error result
      "Failed obtaining the number of CUDA devices on the system" with
    | Except.error e => Except.error e
    | Except.ok _ =>
      if device_count < 0 then
        Except.error (Err.logicError
          "cudaGetDeviceCount() reports an invalid number of CUDA devices")
      else
        Except.ok device_count

/-- A concrete launch configuration, used to instantiate universally
quantified statements at a specific input. -/
def sample_config : launch_configuration_t :=
  { grid_dims := (1, 1, 1), block_dims := (32, 1, 1),
    dynamic_shared_memory_size := 0, block_cooperation := false }

/-- A concrete occupancy-driver behaviour: report success with a minimum grid
of 10 blocks of 128 threads, whatever the inputs. -/
def sample_occupancy_driver : Nat → (Nat → Nat) → Nat → Bool → Nat × Int × Int :=
  fun _ _ _ _ => (status_success, 10, 128)

/- ----------------------------------------------------------------------
Theorems settling the claims.
---------------------------------------------------------------------- -/

/-- Claim C1: for every sequence of nested scoped-override guard entries and
exits on the ambient current-device/context state, including sequences in
which the guarded block raises an exception, the ambient value after the
outermost exit equals the ambient value before the outermost entry — each
guard restores exactly the value it replaced. -/
theorem c1_scoped_override_restores_ambient (v : Nat) (body : Prog) (s : Nat) :
    (run (Prog.scoped_override v body) s).2 = s := rfl

/-- Claim C2: enqueue_launch on a wrapped kernel whose device id differs from
the stream device id fails with an invalid-argument error naming both device
identifiers and issues no driver call (in particular, not the native launch
call); when the ids match, the kernel raw function pointer is recovered and
the call is exactly the raw-launch path on it. -/
theorem c2_enqueue_launch_device_check (k : kernel_t) (s : stream_t)
    (cfg : launch_configuration_t) (params : List Int) :
    (k.device_id ≠ s.device_id →
      enqueue_launch_wrapped k s cfg params =
        (Except.error (Err.invalidArgument
          ("Attempt to enqueue a kernel for " ++ identify_device k.device_id
            ++ " on a stream for " ++ "device " ++ identify_device s.device_id)), []))
    ∧ (k.device_id = s.device_id →
      enqueue_launch_wrapped k s cfg params =
        raw_enqueue_launch k.ptr s.handle cfg params) := by
  constructor
  · intro h
    simp [enqueue_launch_wrapped, h]
  · intro h
    simp [enqueue_launch_wrapped, h]

/-- Witness for C2, at a mismatched pair (devices 0 and 1) and a matched pair
(device 2 on both sides). -/
theorem c2_enqueue_launch_device_check_witness :
    ((⟨0, 0, 10, 11⟩ : kernel_t).device_id ≠ (⟨1, 5⟩ : stream_t).device_id ∧
      enqueue_launch_wrapped ⟨0, 0, 10, 11⟩ ⟨1, 5⟩ sample_config [] =
        (Except.error (Err.invalidArgument
          ("Attempt to enqueue a kernel for " ++ identify_device 0
            ++ " on a stream for " ++ "device " ++ identify_device 1)), []))
    ∧ ((⟨2, 0, 10, 11⟩ : kernel_t).device_id = (⟨2, 5⟩ : stream_t).device_id ∧
      enqueue_launch_wrapped ⟨2, 0, 10, 11⟩ ⟨2, 5⟩ sample_config [] =
        raw_enqueue_launch 11 5 sample_config []) :=
  ⟨⟨by decide,
    by exact (c2_enqueue_launch_device_check ⟨0, 0, 10, 11⟩ ⟨1, 5⟩ sample_config []).1 (by decide)⟩,
   ⟨rfl,
    by exact (c2_enqueue_launch_device_check ⟨2, 0, 10, 11⟩ ⟨2, 5⟩ sample_config []).2 rfl⟩⟩

/-- Claim C3: setting the preferred shared-memory carve-out fraction with a
percentage above 100 fails with an invalid-argument error and issues no
driver attribute-set call; for any percentage from 0 to 100 inclusive (on a
toolkit revision that has the attribute, CUDART_VERSION at least 9000) the
driver attribute-set call is issued with that value. -/
theorem c3_set_preferred_shared_mem_fraction_validates
    (v st : Nat) (k : kernel_t) (p : Nat) :
    (100 < p →
      set_preferred_shared_mem_fraction v st k p =
        (Except.error (Err.invalidArgument "Percentage value can\x27t exceed 100"), []))
    ∧ (p ≤ 100 → 9000 ≤ v →
      set_preferred_shared_mem_fraction v st k p =
        (throw_if_error st
          "Trying to set the carve-out of shared memory/L1 cache memory",
         [DriverCall.funcSetAttribute k.ptr
            cudaFuncAttributePreferredSharedMemoryCarveout (p : Int)])) := by
  constructor
  · intro h
    simp [set_preferred_shared_mem_fraction, h]
  · intro h1 h2
    have h3 : ¬ (100 < p) := by omega
    simp [set_preferred_shared_mem_fraction, h3, h2]

/-- Witness for C3, at percentage 150 (rejected) and percentage 100 (driver
call issued), on toolkit revision 11000. -/
theorem c3_set_preferred_shared_mem_fraction_validates_witness :
    ((100 : Nat) < 150 ∧
      set_preferred_shared_mem_fraction 11000 0 ⟨0, 0, 10, 11⟩ 150 =
        (Except.error (Err.invalidArgument "Percentage value can\x27t exceed 100"), []))
    ∧ ((100 : Nat) ≤ 100 ∧ (9000 : Nat) ≤ 11000 ∧
      set_preferred_shared_mem_fraction 11000 0 ⟨0, 0, 10, 11⟩ 100 =
        (throw_if_error 0
          "Trying to set the carve-out of shared memory/L1 cache memory",
         [DriverCall.funcSetAttribute 11
            cudaFuncAttributePreferredSharedMemoryCarveout (100 : Int)])) :=
  ⟨⟨by decide,
    by exact (c3_set_preferred_shared_mem_fraction_validates 11000 0 ⟨0, 0, 10, 11⟩ 150).1 (by decide)⟩,
   ⟨by decide, by decide,
    by exact (c3_set_preferred_shared_mem_fraction_validates 11000 0 ⟨0, 0, 10, 11⟩ 100).2 (by decide) (by decide)⟩⟩

/-- Claim C4 counterexample: the claim quantifies over every operation that
enqueues an event against a stream, but event_t::record performs no device
check: at an event on device 0 and a stream on device 1 it is not rejected —
it issues the driver record-event call and (the driver accepting) succeeds. -/
theorem c4_counterexample :
    (⟨0, 7⟩ : event_t).device_id ≠ (⟨1, 3⟩ : stream_t).device_id ∧
    event_record status_success ⟨0, 7⟩ ⟨1, 3⟩ =
      (Except.ok (), [DriverCall.eventRecord 7 3]) :=
  ⟨by decide, rfl⟩

/-- Claim C4 (amended): the stream enqueue-event operation
(stream_t::enqueue_t::event) rejects an event whose device id differs from
the stream device id with a typed invalid-argument failure naming both
devices, before any driver call; but event_t::record performs no device-id
check and always issues the driver record call on the given handles, leaving
mismatch detection to the driver. -/
theorem c4_event_enqueue_device_check (st : Nat) (e : event_t) (s : stream_t) :
    (e.device_id ≠ s.device_id →
      stream_enqueue_event st e s =
        (Except.error (Err.invalidArgument
          ("Attempt to enqueue a CUDA event associated with "
            ++ identify_device e.device_id ++ " to be triggered by a stream on "
            ++ identify_device s.device_id)), []))
    ∧ (event_record st e s).2 = [DriverCall.eventRecord e.handle s.handle] := by
  constructor
  · intro h
    simp [stream_enqueue_event, h]
  · rfl

/-- Witness for C4 (amended), at an event on device 0 and a stream on
device 1. -/
theorem c4_event_enqueue_device_check_witness :
    ((⟨0, 7⟩ : event_t).device_id ≠ (⟨1, 3⟩ : stream_t).device_id ∧
      stream_enqueue_event 0 ⟨0, 7⟩ ⟨1, 3⟩ =
        (Except.error (Err.invalidArgument
          ("Attempt to enqueue a CUDA event associated with "
            ++ identify_device 0 ++ " to be triggered by a stream on "
            ++ identify_device 1)), []))
    ∧ (event_record 0 ⟨0, 7⟩ ⟨1, 3⟩).2 = [DriverCall.eventRecord 7 3] :=
  ⟨⟨by decide,
    by exact (c4_event_enqueue_device_check 0 ⟨0, 7⟩ ⟨1, 3⟩).1 (by decide)⟩,
   by exact (c4_event_enqueue_device_check 0 ⟨0, 7⟩ ⟨1, 3⟩).2⟩

/-- Claim C5: for every kernel pointer, device id, block-size limit,
caching-override flag, toolkit revision and driver behaviour, the
fixed-shared-memory-size entry point returns the same result (and issues the
same driver calls) as the function entry point applied to any block-size
function that returns that same fixed size for every block size. -/
theorem c5_fixed_smem_equals_constant_function
    (v : Nat) (d : Nat → (Nat → Nat) → Nat → Bool → Nat × Int × Int)
    (ptr dev smemSize lim : Nat) (dc : Bool)
    (f : Nat → Nat) (hf : ∀ b, f b = smemSize) :
    min_grid_params_for_max_occupancy_var_smem v d ptr dev f lim dc =
      min_grid_params_for_max_occupancy_fixed_smem v d ptr dev smemSize lim dc := by
  have hfe : f = fun _ => smemSize := funext hf
  simp only [min_grid_params_for_max_occupancy_fixed_smem]
  rw [hfe]

/-- Witness for C5, at the constant function returning 48 bytes. -/
theorem c5_fixed_smem_equals_constant_function_witness :
    (∀ b : Nat, (fun _ : Nat => (48 : Nat)) b = 48) ∧
    min_grid_params_for_max_occupancy_var_smem 11000 sample_occupancy_driver
        11 0 (fun _ : Nat => (48 : Nat)) 1024 false =
      min_grid_params_for_max_occupancy_fixed_smem 11000 sample_occupancy_driver
        11 0 48 1024 false :=
  ⟨fun _ => rfl,
   c5_fixed_smem_equals_constant_function 11000 sample_occupancy_driver
     11 0 48 1024 false (fun _ : Nat => (48 : Nat)) (fun _ => rfl)⟩

/-- Claim C6: when the toolkit revision lacks the occupancy query
(CUDART_VERSION at most 10000) or the dynamic-shared-memory opt-in attribute
(CUDART_VERSION below 9000), the operation fails with the typed
not-yet-implemented error — an observable runtime result, not a silent no-op
— and issues no driver call. -/
theorem c6_version_gated_features_fail_not_yet_implemented
    (v : Nat) (d : Nat → (Nat → Nat) → Nat → Bool → Nat × Int × Int)
    (ptr dev : Nat) (f : Nat → Nat) (lim : Nat) (dc : Bool)
    (st : Nat) (k : kernel_t) (amount : Nat) :
    (v ≤ 10000 →
      min_grid_params_for_max_occupancy_var_smem v d ptr dev f lim dc =
        (Except.error (Err.runtimeError status_not_yet_implemented ""), []))
    ∧ (v < 9000 →
      opt_in_to_extra_dynamic_memory v st k amount =
        (Except.error (Err.runtimeError status_not_yet_implemented ""), [])) := by
  constructor
  · intro h
    simp [min_grid_params_for_max_occupancy_var_smem, h]
  · intro h
    have h2 : ¬ (9000 ≤ v) := by omega
    simp [opt_in_to_extra_dynamic_memory, h2]

/-- Witness for C6, at toolkit revisions 10000 (no occupancy query) and 8000
(no dynamic-shared-memory opt-in). -/
theorem c6_version_gated_features_fail_not_yet_implemented_witness :
    ((10000 : Nat) ≤ 10000 ∧
      min_grid_params_for_max_occupancy_var_smem 10000 sample_occupancy_driver
          11 0 (fun _ : Nat => (0 : Nat)) 1024 false =
        (Except.error (Err.runtimeError status_not_yet_implemented ""), []))
    ∧ ((8000 : Nat) < 9000 ∧
      opt_in_to_extra_dynamic_memory 8000 0 ⟨0, 0, 10, 11⟩ 4096 =
        (Except.error (Err.runtimeError status_not_yet_implemented ""), [])) :=
  ⟨⟨by decide,
    by exact (c6_version_gated_features_fail_not_yet_implemented 10000 sample_occupancy_driver 11 0 (fun _ : Nat => (0 : Nat)) 1024 false 0 ⟨0, 0, 10, 11⟩ 4096).1 (by decide)⟩,
   ⟨by decide,
    by exact (c6_version_gated_features_fail_not_yet_implemented 8000 sample_occupancy_driver 11 0 (fun _ : Nat => (0 : Nat)) 1024 false 0 ⟨0, 0, 10, 11⟩ 4096).2 (by decide)⟩⟩

/-- Claim C7: set_maximum_dynamic_shared_memory_per_block fails with an
invalid-argument error, issuing no driver call, exactly when the requested
byte count does not survive the round-trip cast to the attribute-value
integer type and back; when it does survive, the driver attribute-set call is
issued with the converted value (via set_attribute). -/
theorem c7_set_max_dynamic_shared_memory_roundtrip_check
    (ws wa st : Nat) (k : kernel_t) (amount : Nat) :
    (toUnsigned ws (toSigned wa amount) ≠ amount →
      set_maximum_dynamic_shared_memory_per_block ws wa st k amount =
        (Except.error (Err.invalidArgument
          ("Requested amount of maximum shared memory exceeds the "
            ++ "representation range for kernel attribute values")), []))
    ∧ (toUnsigned ws (toSigned wa amount) = amount →
      set_maximum_dynamic_shared_memory_per_block ws wa st k amount =
        set_attribute st k CU_FUNC_ATTRIBUTE_MAX_DYNAMIC_SHARED_SIZE_BYTES
          (toSigned wa amount)) := by
  constructor
  · intro h
    simp [set_maximum_dynamic_shared_memory_per_block, h]
  · intro h
    simp [set_maximum_dynamic_shared_memory_per_block, h]

/-- Witness for C7, with a 64-bit byte count and a 32-bit attribute value: at
2^31 bytes the round trip fails (the cast produces a negative attribute
value) and the request is rejected; at 1024 bytes the round trip succeeds and
the attribute-set call is issued. -/
theorem c7_set_max_dynamic_shared_memory_roundtrip_check_witness :
    (toUnsigned 64 (toSigned 32 (2 ^ 31)) ≠ 2 ^ 31 ∧
      set_maximum_dynamic_shared_memory_per_block 64 32 0 ⟨0, 0, 10, 11⟩ (2 ^ 31) =
        (Except.error (Err.invalidArgument
          ("Requested amount of maximum shared memory exceeds the "
            ++ "representation range for kernel attribute values")), []))
    ∧ (toUnsigned 64 (toSigned 32 1024) = 1024 ∧
      set_maximum_dynamic_shared_memory_per_block 64 32 0 ⟨0, 0, 10, 11⟩ 1024 =
        set_attribute 0 ⟨0, 0, 10, 11⟩ CU_FUNC_ATTRIBUTE_MAX_DYNAMIC_SHARED_SIZE_BYTES
          (toSigned 32 1024)) :=
  ⟨⟨by decide,
    by exact (c7_set_max_dynamic_shared_memory_roundtrip_check 64 32 0 ⟨0, 0, 10, 11⟩ (2 ^ 31)).1 (by decide)⟩,
   ⟨by decide,
    by exact (c7_set_max_dynamic_shared_memory_roundtrip_check 64 32 0 ⟨0, 0, 10, 11⟩ 1024).2 (by decide)⟩⟩

/-- Claim C8: launch resolves an implicit queue — the default stream of the
kernel own device for a wrapped-kernel target, the default stream of the
ambient current device for a raw-callable target — and then behaves exactly
as enqueue_launch on that stream with the same configuration and
parameters. -/
theorem c8_launch_resolves_implicit_default_stream
    (k : kernel_t) (fnPtr : Nat) (cfg : launch_configuration_t)
    (params : List Int) (current_device : Nat) :
    launch (LaunchTarget.wrapped k) cfg params current_device =
        enqueue_launch (LaunchTarget.wrapped k) (default_stream k.device_id) cfg params
    ∧ launch (LaunchTarget.raw fnPtr) cfg params current_device =
        enqueue_launch (LaunchTarget.raw fnPtr) (default_stream current_device) cfg params :=
  ⟨rfl, rfl⟩

/-- Claim C9, evaluated at the failing input: when the driver reports status
700 for the PTX-version (or binary-version) attribute read, the inner
get_attribute_in_current_context does detect and translate the failure into a
typed error — but ptx_version and binary_compilation_target_architecture are
declared noexcept, so the typed error cannot propagate past them: the
program terminates instead of surfacing the failure to the caller. -/
theorem c9_noexcept_swallows_driver_failure :
    get_attribute_in_current_context (fun _ _ => (700, 0)) 10 CU_FUNC_ATTRIBUTE_PTX_VERSION =
      ExecResult.thrown (Err.runtimeError 700
        ("Failed obtaining attribute " ++ attribute_name CU_FUNC_ATTRIBUTE_PTX_VERSION))
    ∧ ptx_version (fun _ _ => (700, 0)) ⟨0, 0, 10, 11⟩ = ExecResult.terminated
    ∧ binary_compilation_target_architecture (fun _ _ => (700, 0)) ⟨0, 0, 10, 11⟩ =
        ExecResult.terminated :=
  ⟨rfl, rfl, rfl⟩

/-- Claim C10: device::count never returns a negative value; on the no-device
status it returns 0, on any other non-success status it fails with the typed
driver error, and on a success status with a negative reported count it fails
with a logic error rather than returning the count. -/
theorem c10_count_never_negative (result : Nat) (device_count : Int) :
    (∀ v : Int, count result device_count = Except.ok v → 0 ≤ v)
    ∧ (result = status_no_device → count result device_count = Except.ok 0)
    ∧ (result ≠ status_no_device → result ≠ status_success →
        count result device_count = Except.error (Err.runtimeError result
          "Failed obtaining the number of CUDA devices on the system"))
    ∧ (result = status_success → device_count < 0 →
        count result device_count = Except.error (Err.logicError
          "cudaGetDeviceCount() reports an invalid number of CUDA devices")) := by
  refine ⟨?_, ?_, ?_, ?_⟩
  · intro v hv
    by_cases h1 : result = status_no_device
    · simp [count, h1] at hv
      omega
    · by_cases h2 : result = status_success
      · subst h2
        by_cases h3 : device_count < 0
        · simp [count, throw_if_error, status_success, status_no_device, h3] at hv
        · simp [count, throw_if_error, status_success, status_no_device, h3] at hv
          omega
      · simp [count, throw_if_error, h1, h2] at hv
  · intro h1
    simp [count, h1]
  · intro h1 h2
    simp [count, throw_if_error, h1, h2]
  · intro h1 h2
    simp [count, throw_if_error, h1, h2, status_no_device, status_success]

/-- Witness for C10, at: a success status reporting 5 devices; the no-device
status; a distinct failure status 2; and a success status with a corrupted
negative count. -/
theorem c10_count_never_negative_witness :
    ((0 : Int) ≤ 5)
    ∧ ((100 : Nat) = status_no_device ∧ count 100 (-3) = Except.ok 0)
    ∧ ((2 : Nat) ≠ status_no_device ∧ (2 : Nat) ≠ status_success ∧
        count 2 0 = Except.error (Err.runtimeError 2
          "Failed obtaining the number of CUDA devices on the system"))
    ∧ ((0 : Nat) = status_success ∧ (-1 : Int) < 0 ∧
        count 0 (-1) = Except.error (Err.logicError
          "cudaGetDeviceCount() reports an invalid number of CUDA devices")) :=
  ⟨by exact (c10_count_never_negative 0 5).1 5 rfl,
   ⟨by decide, by exact (c10_count_never_negative 100 (-3)).2.1 (by decide)⟩,
   ⟨by decide, by decide,
    by exact (c10_count_never_negative 2 0).2.2.1 (by decide) (by decide)⟩,
   ⟨by decide, by decide,
    by exact (c10_count_never_negative 0 (-1)).2.2.2 (by decide) (by decide)⟩⟩

end Cuda
